import Mathlib

/-!
Shallow embedding of the bookmark-browser synchronization core
(src/main.rs): the document data model, JSON (de)serialization as used by
serde, the persistence gateway, the remote push gateway, and the
event-loop state machine.  Window/webview glue, HTML rendering and the
raw HTTP transport are outside the embedding, as the specification
treats them as external collaborators.
-/

/-- Mirrors fn default_true (serde default for Folder.expanded). -/
def default_true : Bool := true

/-- Mirrors struct Bookmark. -/
structure Bookmark where
  name : String
  url : String
deriving DecidableEq, Repr

/-- Mirrors struct Folder. -/
structure Folder where
  name : String
  expanded : Bool
  bookmarks : List Bookmark
deriving DecidableEq, Repr

/-- Mirrors struct BookmarkStore. -/
structure BookmarkStore where
  folders : List Folder
deriving DecidableEq, Repr

/-- Mirrors fn default_store. -/
def default_store : BookmarkStore :=
  { folders :=
      [ { name := "Documentation"
          expanded := true
          bookmarks :=
            [ { name := "The Rust Programming Language"
                url := "https://doc.rust-lang.org/book/" },
              { name := "Arch Wiki"
                url := "https://wiki.archlinux.org/" } ] },
        { name := "News"
          expanded := true
          bookmarks :=
            [ { name := "Hacker News"
                url := "https://news.ycombinator.com/" } ] } ] }

/-- Mirrors struct Settings.  github_gist_id is the legacy field: read
from old settings files (serde default), never written back
(skip_serializing). -/
structure Settings where
  sidebar_collapsed : Bool
  github_token : String
  github_repo : String
  github_gist_id : String
deriving DecidableEq, Repr

/-- Mirrors Settings::default(): every field gets its serde default. -/
def defaultSettings : Settings :=
  { sidebar_collapsed := false
    github_token := ""
    github_repo := ""
    github_gist_id := "" }

/-- Structured JSON values, the level at which serde_json operates.  The
textual rendering is treated as an opaque transport per the spec. -/
inductive Json where
  | str (s : String)
  | bool (b : Bool)
  | num (n : Int)
  | arr (items : List Json)
  | obj (fields : List (String × Json))
  | null
deriving Repr

/-- Field lookup in a JSON object, as serde resolves struct fields. -/
def jsonLookup (fields : List (String × Json)) (key : String) : Option Json :=
  match fields with
  | [] => none
  | (k, v) :: rest => if k = key then some v else jsonLookup rest key

/-- serde_json deserialization of Bookmark: both fields required strings. -/
def decodeBookmark (j : Json) : Option Bookmark :=
  match j with
  | Json.obj fields =>
    match jsonLookup fields "name", jsonLookup fields "url" with
    | some (Json.str n), some (Json.str u) => some { name := n, url := u }
    | _, _ => none
  | _ => none

/-- Element-wise deserialization of a JSON array of bookmarks; any bad
element fails the whole parse (serde never yields a partial list). -/
def decodeBookmarkList (items : List Json) : Option (List Bookmark) :=
  match items with
  | [] => some []
  | j :: rest =>
    match decodeBookmark j, decodeBookmarkList rest with
    | some b, some bs => some (b :: bs)
    | _, _ => none

/-- serde_json deserialization of Folder: name and bookmarks required,
expanded defaults to true when absent (serde default = default_true). -/
def decodeFolder (j : Json) : Option Folder :=
  match j with
  | Json.obj fields =>
    match jsonLookup fields "name" with
    | some (Json.str n) =>
      (match jsonLookup fields "expanded" with
       | none => some default_true
       | some (Json.bool b) => some b
       | some _ => none).bind fun e =>
      match jsonLookup fields "bookmarks" with
      | some (Json.arr items) =>
        (decodeBookmarkList items).map fun bs =>
          { name := n, expanded := e, bookmarks := bs }
      | _ => none
    | _ => none
  | _ => none

/-- Element-wise deserialization of a JSON array of folders. -/
def decodeFolderList (items : List Json) : Option (List Folder) :=
  match items with
  | [] => some []
  | j :: rest =>
    match decodeFolder j, decodeFolderList rest with
    | some f, some fs => some (f :: fs)
    | _, _ => none

/-- serde_json deserialization of BookmarkStore: folders required array. -/
def decodeStore (j : Json) : Option BookmarkStore :=
  match j with
  | Json.obj fields =>
    match jsonLookup fields "folders" with
    | some (Json.arr items) =>
      (decodeFolderList items).map fun fs => { folders := fs }
    | _ => none
  | _ => none

/-- serde_json deserialization of Settings: every field has a serde
default, so each may be absent; a present field of the wrong type fails
the parse.  The legacy github_gist_id is accepted on load. -/
def decodeSettings (j : Json) : Option Settings :=
  match j with
  | Json.obj fields =>
    (match jsonLookup fields "sidebar_collapsed" with
     | none => some false
     | some (Json.bool b) => some b
     | some _ => none).bind fun collapsed =>
    (match jsonLookup fields "github_token" with
     | none => some ""
     | some (Json.str s) => some s
     | some _ => none).bind fun tok =>
    (match jsonLookup fields "github_repo" with
     | none => some ""
     | some (Json.str s) => some s
     | some _ => none).bind fun repo =>
    (match jsonLookup fields "github_gist_id" with
     | none => some ""
     | some (Json.str s) => some s
     | some _ => none).map fun gist =>
    { sidebar_collapsed := collapsed
      github_token := tok
      github_repo := repo
      github_gist_id := gist }
  | _ => none

/-- serde_json serialization of Bookmark (fields in declaration order). -/
def encodeBookmark (b : Bookmark) : Json :=
  Json.obj [("name", Json.str b.name), ("url", Json.str b.url)]

/-- serde_json serialization of Folder. -/
def encodeFolder (f : Folder) : Json :=
  Json.obj [("name", Json.str f.name),
            ("expanded", Json.bool f.expanded),
            ("bookmarks", Json.arr (f.bookmarks.map encodeBookmark))]

/-- serde_json serialization of BookmarkStore. -/
def encodeStore (s : BookmarkStore) : Json :=
  Json.obj [("folders", Json.arr (s.folders.map encodeFolder))]

/-- serde_json serialization of Settings: github_gist_id carries
skip_serializing, so it is never emitted. -/
def encodeSettings (s : Settings) : Json :=
  Json.obj [("sidebar_collapsed", Json.bool s.sidebar_collapsed),
            ("github_token", Json.str s.github_token),
            ("github_repo", Json.str s.github_repo)]

/-- Whether a serialized object carries a given key. -/
def objHasKey (j : Json) (key : String) : Bool :=
  match j with
  | Json.obj fields => fields.any fun p => p.1 = key
  | _ => false

/-- State of the backing file as the load path observes it: absent or
unreadable (read_to_string fails), readable but not valid JSON text
(from_str fails at the lexical level), or parsed JSON structure. -/
inductive FileContent where
  | missing
  | malformed
  | json (j : Json)
deriving Repr

/-- Mirrors BookmarkStore::load_from: read .ok() .and_then(parse .ok())
.unwrap_or_else(default_store). -/
def BookmarkStore.load_from (fc : FileContent) : BookmarkStore :=
  match fc with
  | FileContent.missing => default_store
  | FileContent.malformed => default_store
  | FileContent.json j => (decodeStore j).getD default_store

/-- Mirrors BookmarkStore::save_to: the content written to the backing
file is the serde_json serialization of the store. -/
def BookmarkStore.save_to (s : BookmarkStore) : FileContent :=
  FileContent.json (encodeStore s)

/-- Mirrors Settings::load_from: read .ok() .and_then(parse .ok())
.unwrap_or_default(). -/
def Settings.load_from (fc : FileContent) : Settings :=
  match fc with
  | FileContent.missing => defaultSettings
  | FileContent.malformed => defaultSettings
  | FileContent.json j => (decodeSettings j).getD defaultSettings

/-- Mirrors Settings::save_to. -/
def Settings.save_to (s : Settings) : FileContent :=
  FileContent.json (encodeSettings s)

/-- Apply f to the folder at index i, identity if i is out of range
(mirrors store.folders.get_mut(i) guarding each handler). -/
def modifyFolder (folders : List Folder) (i : Nat) (f : Folder → Folder) :
    List Folder :=
  match folders, i with
  | [], _ => []
  | x :: rest, 0 => f x :: rest
  | x :: rest, Nat.succ j => x :: modifyFolder rest j f

/-- ToggleFolder handler body: flip expanded at index i, no-op if out of
range. -/
def toggleFolder (st : BookmarkStore) (i : Nat) : BookmarkStore :=
  { folders := modifyFolder st.folders i fun f =>
      { f with expanded := !f.expanded } }

/-- AddFolder handler body: push a new folder, expanded, no bookmarks. -/
def addFolder (st : BookmarkStore) (name : String) : BookmarkStore :=
  { folders := st.folders ++ [{ name := name, expanded := true, bookmarks := [] }] }

/-- AddBookmark handler body: append to folder folder_index, no-op if the
index is out of range. -/
def addBookmark (st : BookmarkStore) (folder_index : Nat)
    (name url : String) : BookmarkStore :=
  { folders := modifyFolder st.folders folder_index fun f =>
      { f with bookmarks := f.bookmarks ++ [{ name := name, url := url }] } }

/-- DeleteBookmark handler body: remove bookmark bookmark_index from
folder folder_index; no-op if either index is out of range (the handler
checks bookmark_index < len before Vec::remove). -/
def deleteBookmark (st : BookmarkStore) (folder_index bookmark_index : Nat) :
    BookmarkStore :=
  { folders := modifyFolder st.folders folder_index fun f =>
      if bookmark_index < f.bookmarks.length then
        { f with bookmarks := f.bookmarks.eraseIdx bookmark_index }
      else f }

/-- DeleteFolder handler body: remove the folder at index i; no-op if out
of range (the handler checks index < len before Vec::remove). -/
def deleteFolder (st : BookmarkStore) (i : Nat) : BookmarkStore :=
  if i < st.folders.length then { folders := st.folders.eraseIdx i }
  else st

/-- A network call made by the push gateway, in order: the version probe
(get_file_sha) or the PUT, recording which sha the request carries. -/
inductive NetCall where
  | probe
  | put (sha : Option String)
deriving DecidableEq, Repr

/-- Abstract remote endpoint: the response get_file_sha would observe
(Ok none encodes HTTP 404, the object not existing yet) and the response
the PUT would observe for a given carried sha.  Transport, base64 and the
GitHub wire format are opaque per the spec. -/
structure Remote where
  probeResponse : Except String (Option String)
  putResponse : Option String → Except String String

/-- Mirrors fn get_file_sha: one probe call, yielding the remote's
response. -/
def get_file_sha (remote : Remote) :
    Except String (Option String) × List NetCall :=
  (remote.probeResponse, [NetCall.probe])

/-- Mirrors fn do_push: a supplied sha is used as-is; with None the
gateway first probes via get_file_sha (propagating its error) and the PUT
carries the probed sha.  Returns the result and the ordered network
calls made. -/
def do_push (remote : Remote) (sha : Option String) :
    Except String String × List NetCall :=
  match sha with
  | some s => (remote.putResponse (some s), [NetCall.put (some s)])
  | none =>
    match remote.probeResponse with
    | Except.error e => (Except.error e, [NetCall.probe])
    | Except.ok probed =>
      (remote.putResponse probed, [NetCall.probe, NetCall.put probed])

/-- Mirrors enum UserEvent (the events the event loop processes). -/
inductive UserEvent where
  | Navigate (url : String)
  | ToggleFolder (index : Nat)
  | ToggleSidebar
  | AddFolder (name : String)
  | AddBookmark (folder_index : Nat) (name url : String)
  | DeleteBookmark (folder_index bookmark_index : Nat)
  | DeleteFolder (index : Nat)
  | SaveSettings (github_token github_repo : String)
  | PushToGitHub
  | PullFromGitHub
  | AutoSync
  | SyncStatus (msg : String)
  | PushComplete (new_sha : Option String)
  | PullComplete (new_store : BookmarkStore) (sha : String)
deriving DecidableEq, Repr

/-- Observable side effects a handler performs, in order: persisting the
store or settings, an updateSyncStatus message to the sidebar, an event
posted back onto the loop via the proxy, and spawning a background
network worker for push (carrying the pushed snapshot and sha) or pull. -/
inductive Effect where
  | saveStore (s : BookmarkStore)
  | saveSettings (s : Settings)
  | status (msg : String)
  | postEvent (e : UserEvent)
  | spawnPush (token repo : String) (payload : BookmarkStore) (sha : Option String)
  | spawnPull (token repo : String)
deriving DecidableEq, Repr

/-- The mutable state owned by the event loop: store, settings,
remote_sha (the conflict token) and sync_in_progress. -/
structure LoopState where
  store : BookmarkStore
  settings : Settings
  remote_sha : Option String
  sync_in_progress : Bool
deriving DecidableEq, Repr

/-- One iteration of the event loop on a user event: the successor state
and the ordered effects the handler performs (rendering scripts, being
pure presentation, are not modeled). -/
def step (s : LoopState) (ev : UserEvent) : LoopState × List Effect :=
  match ev with
  | UserEvent.Navigate _ => (s, [])
  | UserEvent.ToggleSidebar =>
    let settings2 := { s.settings with
      sidebar_collapsed := !s.settings.sidebar_collapsed }
    ({ s with settings := settings2 }, [Effect.saveSettings settings2])
  | UserEvent.ToggleFolder index =>
    if index < s.store.folders.length then
      let store2 := toggleFolder s.store index
      ({ s with store := store2 }, [Effect.saveStore store2])
    else (s, [])
  | UserEvent.AddFolder name =>
    let store2 := addFolder s.store name
    ({ s with store := store2 },
     [Effect.saveStore store2, Effect.postEvent UserEvent.AutoSync])
  | UserEvent.AddBookmark folder_index name url =>
    if folder_index < s.store.folders.length then
      let store2 := addBookmark s.store folder_index name url
      ({ s with store := store2 },
       [Effect.saveStore store2, Effect.postEvent UserEvent.AutoSync])
    else (s, [])
  | UserEvent.DeleteBookmark folder_index bookmark_index =>
    match s.store.folders.get? folder_index with
    | some f =>
      if bookmark_index < f.bookmarks.length then
        let store2 := deleteBookmark s.store folder_index bookmark_index
        ({ s with store := store2 },
         [Effect.saveStore store2, Effect.postEvent UserEvent.AutoSync])
      else (s, [])
    | none => (s, [])
  | UserEvent.DeleteFolder index =>
    if index < s.store.folders.length then
      let store2 := deleteFolder s.store index
      ({ s with store := store2 },
       [Effect.saveStore store2, Effect.postEvent UserEvent.AutoSync])
    else (s, [])
  | UserEvent.SaveSettings github_token github_repo =>
    let settings1 :=
      if github_token = "" then s.settings
      else { s.settings with github_token := github_token }
    let sha2 :=
      if s.settings.github_repo = github_repo then s.remote_sha else none
    let settings2 := { settings1 with github_repo := github_repo }
    ({ s with settings := settings2, remote_sha := sha2 },
     [Effect.saveSettings settings2])
  | UserEvent.PushToGitHub =>
    if s.settings.github_token = "" then
      (s, [Effect.status "No token configured — open Settings"])
    else if s.settings.github_repo = "" then
      (s, [Effect.status "No repo configured — open Settings"])
    else if s.sync_in_progress then
      (s, [])
    else
      ({ s with sync_in_progress := true },
       [Effect.status "Pushing...",
        Effect.spawnPush s.settings.github_token s.settings.github_repo
          s.store s.remote_sha])
  | UserEvent.PullFromGitHub =>
    if s.settings.github_token = "" then
      (s, [Effect.status "No token configured — open Settings"])
    else if s.settings.github_repo = "" then
      (s, [Effect.status "No repo configured — open Settings"])
    else if s.sync_in_progress then
      (s, [])
    else
      ({ s with sync_in_progress := true },
       [Effect.status "Pulling...",
        Effect.spawnPull s.settings.github_token s.settings.github_repo])
  | UserEvent.AutoSync =>
    if s.sync_in_progress || s.settings.github_token = ""
        || s.settings.github_repo = "" then
      (s, [])
    else
      ({ s with sync_in_progress := true },
       [Effect.spawnPush s.settings.github_token s.settings.github_repo
          s.store s.remote_sha])
  | UserEvent.SyncStatus msg =>
    ({ s with sync_in_progress := false }, [Effect.status msg])
  | UserEvent.PushComplete new_sha =>
    ({ s with sync_in_progress := false, remote_sha := new_sha },
     [Effect.status "Pushed successfully"])
  | UserEvent.PullComplete new_store sha =>
    ({ s with
        store := new_store
        remote_sha := some sha
        sync_in_progress := false },
     [Effect.saveStore new_store, Effect.status "Pulled successfully"])

/-- The branch the PushToGitHub handler takes, in its guard order: no
token configured, no repo configured, a sync already in flight (the
silent early return), or a push actually started. -/
inductive PushOutcome where
  | noToken
  | noRepo
  | alreadyInProgress
  | started
deriving DecidableEq, Repr

/-- Which branch the PushToGitHub handler takes from a given state. -/
def pushOutcome (s : LoopState) : PushOutcome :=
  if s.settings.github_token = "" then PushOutcome.noToken
  else if s.settings.github_repo = "" then PushOutcome.noRepo
  else if s.sync_in_progress then PushOutcome.alreadyInProgress
  else PushOutcome.started

/-- True when the effect spawns a background network worker. -/
def Effect.isSpawn (e : Effect) : Bool :=
  match e with
  | Effect.spawnPush _ _ _ _ => true
  | Effect.spawnPull _ _ => true
  | _ => false

/-! Helper lemmas about the document operations and the codec. -/

theorem modifyFolder_oob (l : List Folder) (i : Nat) (f : Folder → Folder)
    (h : l.length ≤ i) : modifyFolder l i f = l := by
  induction l generalizing i with
  | nil => rfl
  | cons x rest ih =>
    cases i with
    | zero => simp at h
    | succ j =>
      simp only [modifyFolder]
      rw [ih j (by simpa using h)]

theorem modifyFolder_fixed (l : List Folder) (i : Nat) (f : Folder → Folder)
    (h : ∀ x, l.get? i = some x → f x = x) : modifyFolder l i f = l := by
  induction l generalizing i with
  | nil => rfl
  | cons x rest ih =>
    cases i with
    | zero => simp [modifyFolder, h x rfl]
    | succ j =>
      simp only [modifyFolder]
      rw [ih j (fun y hy => h y (by simpa using hy))]

theorem decodeBookmark_encodeBookmark (b : Bookmark) :
    decodeBookmark (encodeBookmark b) = some b := rfl

theorem decodeBookmarkList_map (bs : List Bookmark) :
    decodeBookmarkList (bs.map encodeBookmark) = some bs := by
  induction bs with
  | nil => rfl
  | cons b rest ih =>
    simp [decodeBookmarkList, decodeBookmark_encodeBookmark, ih]

theorem decodeFolder_encodeFolder (f : Folder) :
    decodeFolder (encodeFolder f) = some f := by
  simp [decodeFolder, encodeFolder, jsonLookup, decodeBookmarkList_map]

theorem decodeFolderList_map (fs : List Folder) :
    decodeFolderList (fs.map encodeFolder) = some fs := by
  induction fs with
  | nil => rfl
  | cons f rest ih =>
    simp [decodeFolderList, decodeFolder_encodeFolder, ih]

theorem decodeStore_encodeStore (d : BookmarkStore) :
    decodeStore (encodeStore d) = some d := by
  simp [decodeStore, encodeStore, jsonLookup, decodeFolderList_map]

/-! Claim theorems. -/

/-- C4: a successful pull (PullComplete d2 tok) replaces the entire
in-memory Document with d2, persists it, sets the conflict token to the
observed token and clears sync_in_progress, leaving settings untouched;
a pull error (delivered as SyncStatus) only clears sync_in_progress and
reports the message, mutating nothing else. -/
theorem pull_complete_replaces_document (s : LoopState) (d2 : BookmarkStore)
    (tok msg : String) :
    step s (UserEvent.PullComplete d2 tok)
      = ({ store := d2, settings := s.settings, remote_sha := some tok,
           sync_in_progress := false },
         [Effect.saveStore d2, Effect.status "Pulled successfully"]) ∧
    step s (UserEvent.SyncStatus msg)
      = ({ s with sync_in_progress := false }, [Effect.status msg]) :=
  ⟨rfl, rfl⟩

/-- C5: do_push with no expected token first probes the remote version
(get_file_sha) and the write carries exactly the probed token (including
none when the object does not exist yet); a probe error aborts without
writing; a supplied token is used as-is with no probe. -/
theorem do_push_version_probe (remote : Remote) (t : String) :
    do_push remote (some t)
      = (remote.putResponse (some t), [NetCall.put (some t)]) ∧
    (do_push remote none).2.head? = some NetCall.probe ∧
    (∀ probed, remote.probeResponse = Except.ok probed →
      do_push remote none
        = (remote.putResponse probed, [NetCall.probe, NetCall.put probed])) ∧
    (∀ e, remote.probeResponse = Except.error e →
      do_push remote none = (Except.error e, [NetCall.probe])) := by
  refine ⟨rfl, ?_, ?_, ?_⟩
  · cases h : remote.probeResponse <;> simp [do_push, h]
  · intro probed hp
    simp [do_push, hp]
  · intro e he
    simp [do_push, he]

/-- Concrete remote used to witness do_push_version_probe. -/
def remoteW : Remote :=
  { probeResponse := Except.ok (some "sha0")
    putResponse := fun _ => Except.ok "sha1" }

/-- Witness for C5 at a concrete remote whose object exists with token
sha0. -/
theorem do_push_version_probe_witness :
    remoteW.probeResponse = Except.ok (some "sha0") ∧
    do_push remoteW none
      = (Except.ok "sha1", [NetCall.probe, NetCall.put (some "sha0")]) ∧
    do_push remoteW (some "t0")
      = (Except.ok "sha1", [NetCall.put (some "t0")]) :=
  ⟨rfl, (do_push_version_probe remoteW "t0").2.2.1 (some "sha0") rfl,
   (do_push_version_probe remoteW "t0").1⟩

/-- C7: load never fails — a missing or unreadable backing file, a file
whose text is not JSON, or JSON that fails to parse as the expected
structure all yield the built-in default document (resp. default
settings). -/
theorem load_returns_default (j j2 : Json) (hj : decodeStore j = none)
    (hj2 : decodeSettings j2 = none) :
    BookmarkStore.load_from FileContent.missing = default_store ∧
    BookmarkStore.load_from FileContent.malformed = default_store ∧
    BookmarkStore.load_from (FileContent.json j) = default_store ∧
    Settings.load_from FileContent.missing = defaultSettings ∧
    Settings.load_from FileContent.malformed = defaultSettings ∧
    Settings.load_from (FileContent.json j2) = defaultSettings := by
  refine ⟨rfl, rfl, ?_, rfl, rfl, ?_⟩
  · simp [BookmarkStore.load_from, hj]
  · simp [Settings.load_from, hj2]

/-- Witness for C7 at a concrete unparseable content (JSON null is not a
valid BookmarkStore or Settings document). -/
theorem load_returns_default_witness :
    decodeStore Json.null = none ∧
    decodeSettings Json.null = none ∧
    BookmarkStore.load_from (FileContent.json Json.null) = default_store ∧
    Settings.load_from (FileContent.json Json.null) = defaultSettings :=
  ⟨rfl, rfl, (load_returns_default Json.null Json.null rfl rfl).2.2.1,
   (load_returns_default Json.null Json.null rfl rfl).2.2.2.2.2⟩

/-- C8: save followed by load returns the original Document exactly, for
every Document (zero folders and folders with zero bookmarks included),
preserving folder and bookmark order. -/
theorem save_load_round_trip (d : BookmarkStore) :
    BookmarkStore.load_from (BookmarkStore.save_to d) = d := by
  simp [BookmarkStore.load_from, BookmarkStore.save_to, decodeStore_encodeStore]

/-- C9: a persisted settings document carrying the obsolete
github_gist_id field loads successfully, preserving sidebar_collapsed,
github_token and github_repo (the latter defaulting when absent, as in
the old format), and no saved settings document ever carries the
obsolete field. -/
theorem legacy_settings_migration (c : Bool) (tok repo gist : String) :
    decodeSettings (Json.obj
        [("sidebar_collapsed", Json.bool c),
         ("github_token", Json.str tok),
         ("github_repo", Json.str repo),
         ("github_gist_id", Json.str gist)])
      = some { sidebar_collapsed := c, github_token := tok,
               github_repo := repo, github_gist_id := gist } ∧
    decodeSettings (Json.obj
        [("sidebar_collapsed", Json.bool false),
         ("github_token", Json.str "tok"),
         ("github_gist_id", Json.str "abc123")])
      = some { sidebar_collapsed := false, github_token := "tok",
               github_repo := "", github_gist_id := "abc123" } ∧
    (∀ s : Settings, objHasKey (encodeSettings s) "github_gist_id" = false) :=
  ⟨rfl, rfl, fun _ => rfl⟩

/-- C10: SaveSettings keeps the stored credential when the supplied one
is empty and replaces it otherwise; it resets the conflict token to none
exactly when the supplied repo differs from the stored one, preserving
it when unchanged; the document, sync flag and remaining settings fields
are untouched. -/
theorem save_settings_semantics (s : LoopState) (tok repo : String) :
    (step s (UserEvent.SaveSettings tok repo)).1.settings.github_token
      = (if tok = "" then s.settings.github_token else tok) ∧
    (step s (UserEvent.SaveSettings tok repo)).1.settings.github_repo = repo ∧
    (step s (UserEvent.SaveSettings tok repo)).1.remote_sha
      = (if s.settings.github_repo = repo then s.remote_sha else none) ∧
    (step s (UserEvent.SaveSettings tok repo)).1.settings.sidebar_collapsed
      = s.settings.sidebar_collapsed ∧
    (step s (UserEvent.SaveSettings tok repo)).1.settings.github_gist_id
      = s.settings.github_gist_id ∧
    (step s (UserEvent.SaveSettings tok repo)).1.store = s.store ∧
    (step s (UserEvent.SaveSettings tok repo)).1.sync_in_progress
      = s.sync_in_progress ∧
    (step s (UserEvent.SaveSettings tok repo)).2
      = [Effect.saveSettings (step s (UserEvent.SaveSettings tok repo)).1.settings] := by
  by_cases ht : tok = "" <;>
    by_cases hr : s.settings.github_repo = repo <;>
    simp [step, ht, hr]

/-- C6: every mutation command given an out-of-range folder index, and
deleteBookmark given an out-of-range bookmark index in a valid folder,
is a silent no-op: the pure operation returns the Document unchanged and
the corresponding event-loop handler leaves the state unchanged and
performs no effect (no save, no autosync, no crash, no partial
mutation). -/
theorem mutation_out_of_range_no_op (s : LoopState) (i bi : Nat)
    (n u : String) (hi : s.store.folders.length ≤ i) :
    toggleFolder s.store i = s.store ∧
    addBookmark s.store i n u = s.store ∧
    deleteFolder s.store i = s.store ∧
    deleteBookmark s.store i bi = s.store ∧
    step s (UserEvent.ToggleFolder i) = (s, []) ∧
    step s (UserEvent.AddBookmark i n u) = (s, []) ∧
    step s (UserEvent.DeleteFolder i) = (s, []) ∧
    step s (UserEvent.DeleteBookmark i bi) = (s, []) ∧
    (∀ fi f, s.store.folders.get? fi = some f → f.bookmarks.length ≤ bi →
      deleteBookmark s.store fi bi = s.store ∧
      step s (UserEvent.DeleteBookmark fi bi) = (s, [])) := by
  have hnone : s.store.folders[i]? = none := by
    rw [List.getElem?_eq_none_iff]
    exact hi
  have hnlt : ¬ i < s.store.folders.length := Nat.not_lt.mpr hi
  refine ⟨?_, ?_, ?_, ?_, ?_, ?_, ?_, ?_, ?_⟩
  · simp [toggleFolder, modifyFolder_oob _ _ _ hi]
  · simp [addBookmark, modifyFolder_oob _ _ _ hi]
  · simp [deleteFolder, hnlt]
  · simp [deleteBookmark, modifyFolder_oob _ _ _ hi]
  · simp [step, hnlt]
  · simp [step, hnlt]
  · simp [step, hnlt]
  · simp [step, hnone]
  · intro fi f hf hb
    have hbn : ¬ bi < f.bookmarks.length := Nat.not_lt.mpr hb
    constructor
    · have : deleteBookmark s.store fi bi
          = { folders := modifyFolder s.store.folders fi fun fo =>
                if bi < fo.bookmarks.length then
                  { fo with bookmarks := fo.bookmarks.eraseIdx bi }
                else fo } := rfl
      rw [this, modifyFolder_fixed]
      intro x hx
      rw [hf] at hx
      cases hx
      simp [hbn]
    · have hf2 : s.store.folders[fi]? = some f := by
        rw [← List.get?_eq_getElem?]
        exact hf
      simp [step, hf2, hbn]

/-- Concrete loop state used to witness mutation_out_of_range_no_op. -/
def sC6 : LoopState :=
  { store := default_store
    settings := defaultSettings
    remote_sha := none
    sync_in_progress := false }

/-- Witness for C6: deleteBookmark(0, 999) and addBookmark(999, n, u) on
the default document leave it unchanged, with no handler effects. -/
theorem mutation_out_of_range_no_op_witness :
    sC6.store.folders.length ≤ 999 ∧
    toggleFolder sC6.store 999 = sC6.store ∧
    addBookmark sC6.store 999 "n" "u" = sC6.store ∧
    step sC6 (UserEvent.AddBookmark 999 "n" "u") = (sC6, []) ∧
    deleteBookmark sC6.store 0 999 = sC6.store ∧
    step sC6 (UserEvent.DeleteBookmark 0 999) = (sC6, []) :=
  have h := mutation_out_of_range_no_op sC6 999 999 "n" "u" (by decide)
  ⟨by decide, h.1, h.2.1, h.2.2.2.2.2.1,
   (h.2.2.2.2.2.2.2.2 0 _ rfl (by decide)).1,
   (h.2.2.2.2.2.2.2.2 0 _ rfl (by decide)).2⟩

/-- Concrete loop state with a stored conflict token and repo a/b, used
for the C1 counterexample and witness. -/
def sC1 : LoopState :=
  { store := default_store
    settings := { sidebar_collapsed := false, github_token := "t",
                  github_repo := "a/b", github_gist_id := "" }
    remote_sha := some "abc"
    sync_in_progress := false }

/-- C1 counterexample: SaveSettings with a different repo location is an
operation other than a successful push or pull, yet it mutates the
conflict token (resetting some abc to none). -/
theorem token_mutated_by_save_settings :
    (step sC1 (UserEvent.SaveSettings "" "c/d")).1.remote_sha = none ∧
    sC1.remote_sha = some "abc" ∧
    (step sC1 (UserEvent.SaveSettings "" "c/d")).1.remote_sha
      ≠ sC1.remote_sha := by
  refine ⟨by decide, rfl, by decide⟩

/-- C1 amended: the conflict token is mutated only by a successful push
(PushComplete, set to the returned token), a successful pull
(PullComplete, set to the observed token), or SaveSettings with a repo
differing from the stored one (reset to none); a failed push or pull
(SyncStatus) and every other event leave it unchanged. -/
theorem token_updates_characterized (s : LoopState) (ev : UserEvent) :
    ((step s ev).1.remote_sha ≠ s.remote_sha →
      (∃ sh, ev = UserEvent.PushComplete sh) ∨
      (∃ d sh, ev = UserEvent.PullComplete d sh) ∨
      (∃ t r, ev = UserEvent.SaveSettings t r ∧ s.settings.github_repo ≠ r)) ∧
    (∀ sh, (step s (UserEvent.PushComplete sh)).1.remote_sha = sh) ∧
    (∀ d sh, (step s (UserEvent.PullComplete d sh)).1.remote_sha = some sh) ∧
    (∀ msg, (step s (UserEvent.SyncStatus msg)).1.remote_sha = s.remote_sha) := by
  refine ⟨?_, fun sh => rfl, fun d sh => rfl, fun msg => rfl⟩
  intro h
  cases ev with
  | PushComplete sh => exact Or.inl ⟨sh, rfl⟩
  | PullComplete d sh => exact Or.inr (Or.inl ⟨d, sh, rfl⟩)
  | SaveSettings t r =>
    refine Or.inr (Or.inr ⟨t, r, rfl, ?_⟩)
    intro hr
    exact h (by simp [step, hr])
  | Navigate url => exact absurd rfl h
  | ToggleSidebar => exact absurd rfl h
  | ToggleFolder i =>
    exact absurd (by simp only [step]; split <;> rfl) h
  | AddFolder name => exact absurd rfl h
  | AddBookmark fi n2 u2 =>
    exact absurd (by simp only [step]; split <;> rfl) h
  | DeleteBookmark fi bi =>
    exact absurd (by simp only [step]; split <;> (try split) <;> rfl) h
  | DeleteFolder i =>
    exact absurd (by simp only [step]; split <;> rfl) h
  | PushToGitHub =>
    exact absurd
      (by simp only [step]; split <;> (try split) <;> (try split) <;> rfl) h
  | PullFromGitHub =>
    exact absurd
      (by simp only [step]; split <;> (try split) <;> (try split) <;> rfl) h
  | AutoSync =>
    exact absurd (by simp only [step]; split <;> rfl) h
  | SyncStatus msg => exact absurd rfl h

/-- Witness for C1 at the concrete token-mutating SaveSettings event. -/
theorem token_updates_characterized_witness :
    (step sC1 (UserEvent.SaveSettings "" "c/d")).1.remote_sha
      ≠ sC1.remote_sha ∧
    ((∃ sh, UserEvent.SaveSettings "" "c/d" = UserEvent.PushComplete sh) ∨
     (∃ d sh, UserEvent.SaveSettings "" "c/d" = UserEvent.PullComplete d sh) ∨
     (∃ t r, UserEvent.SaveSettings "" "c/d" = UserEvent.SaveSettings t r ∧
       sC1.settings.github_repo ≠ r)) :=
  ⟨by decide,
   (token_updates_characterized sC1 (UserEvent.SaveSettings "" "c/d")).1
     (by decide)⟩

/-- Concrete loop state (default document, default settings) for the C2
counterexample and witness. -/
def sC2 : LoopState :=
  { store := default_store
    settings := defaultSettings
    remote_sha := none
    sync_in_progress := false }

/-- C2 counterexample: ToggleFolder 0 successfully mutates and persists
the Document (folder 0 collapses) yet the handler posts no AutoSync
event — its only effect is the save. -/
theorem toggle_folder_skips_autosync :
    (step sC2 (UserEvent.ToggleFolder 0)).1.store ≠ sC2.store ∧
    Effect.postEvent UserEvent.AutoSync
      ∉ (step sC2 (UserEvent.ToggleFolder 0)).2 ∧
    (step sC2 (UserEvent.ToggleFolder 0)).2
      = [Effect.saveStore (toggleFolder sC2.store 0)] := by
  refine ⟨by decide, by decide, by decide⟩

/-- C2 amended: every successful Document mutation except toggleFolder
(addFolder always; addBookmark, deleteBookmark, deleteFolder when their
indices are valid) posts an AutoSync event; toggleFolder saves the
change but never posts AutoSync. -/
theorem autosync_follows_mutations (s : LoopState) (name n u : String)
    (i fi bi : Nat) :
    Effect.postEvent UserEvent.AutoSync
      ∈ (step s (UserEvent.AddFolder name)).2 ∧
    (fi < s.store.folders.length →
      Effect.postEvent UserEvent.AutoSync
        ∈ (step s (UserEvent.AddBookmark fi n u)).2) ∧
    (∀ f, s.store.folders.get? fi = some f → bi < f.bookmarks.length →
      Effect.postEvent UserEvent.AutoSync
        ∈ (step s (UserEvent.DeleteBookmark fi bi)).2) ∧
    (i < s.store.folders.length →
      Effect.postEvent UserEvent.AutoSync
        ∈ (step s (UserEvent.DeleteFolder i)).2) ∧
    Effect.postEvent UserEvent.AutoSync
      ∉ (step s (UserEvent.ToggleFolder i)).2 := by
  refine ⟨by simp [step], ?_, ?_, ?_, ?_⟩
  · intro hlt
    simp [step, hlt]
  · intro f hf hb
    have hf2 : s.store.folders[fi]? = some f := by
      rw [← List.get?_eq_getElem?]
      exact hf
    simp [step, hf2, hb]
  · intro hlt
    simp [step, hlt]
  · simp only [step]
    split <;> simp

/-- Witness for C2 at the default document: folder 0 is valid and holds
two bookmarks, so its mutations post AutoSync while toggling does not. -/
theorem autosync_follows_mutations_witness :
    (0 < sC2.store.folders.length) ∧
    Effect.postEvent UserEvent.AutoSync
      ∈ (step sC2 (UserEvent.AddFolder "Work")).2 ∧
    Effect.postEvent UserEvent.AutoSync
      ∈ (step sC2 (UserEvent.AddBookmark 0 "n" "u")).2 ∧
    Effect.postEvent UserEvent.AutoSync
      ∈ (step sC2 (UserEvent.DeleteBookmark 0 1)).2 ∧
    Effect.postEvent UserEvent.AutoSync
      ∈ (step sC2 (UserEvent.DeleteFolder 0)).2 ∧
    Effect.postEvent UserEvent.AutoSync
      ∉ (step sC2 (UserEvent.ToggleFolder 0)).2 :=
  have h := autosync_follows_mutations sC2 "Work" "n" "u" 0 0 1
  ⟨by decide, h.1, h.2.1 (by decide), h.2.2.1 _ rfl (by decide),
   h.2.2.2.1 (by decide), h.2.2.2.2⟩

/-- Concrete in-flight loop state whose repo was cleared by a later
SaveSettings (reachable: push starts with token t and repo r, then
SaveSettings with an empty repo arrives while the worker runs); used as
the C3 counterexample. -/
def sC3 : LoopState :=
  { store := default_store
    settings := { sidebar_collapsed := false, github_token := "t",
                  github_repo := "", github_gist_id := "" }
    remote_sha := none
    sync_in_progress := true }

/-- C3 counterexample: in this in-flight state, push takes the NoRepo
guard, emitting the no-repo failure message — not the silent
AlreadyInProgress rejection the claim requires of every in-flight state
(state still unmutated, nothing spawned). -/
theorem push_in_flight_yields_norepo :
    sC3.sync_in_progress = true ∧
    pushOutcome sC3 = PushOutcome.noRepo ∧
    pushOutcome sC3 ≠ PushOutcome.alreadyInProgress ∧
    step sC3 UserEvent.PushToGitHub
      = (sC3, [Effect.status "No repo configured — open Settings"]) := by
  refine ⟨rfl, by decide, by decide, by decide⟩

/-- C3 amended: in every state with a sync in flight, push leaves the
whole state unchanged and spawns no network worker; when credential and
repo are both configured it takes the silent AlreadyInProgress branch
(no effects at all), and otherwise it reports the missing-credential or
missing-repo failure instead. -/
theorem push_single_flight (s : LoopState) (h : s.sync_in_progress = true) :
    (step s UserEvent.PushToGitHub).1 = s ∧
    (∀ e, e ∈ (step s UserEvent.PushToGitHub).2 → e.isSpawn = false) ∧
    (s.settings.github_token ≠ "" → s.settings.github_repo ≠ "" →
      pushOutcome s = PushOutcome.alreadyInProgress ∧
      step s UserEvent.PushToGitHub = (s, [])) := by
  have hstep : step s UserEvent.PushToGitHub
      = (s, if s.settings.github_token = "" then
              [Effect.status "No token configured — open Settings"]
            else if s.settings.github_repo = "" then
              [Effect.status "No repo configured — open Settings"]
            else []) := by
    by_cases ht : s.settings.github_token = "" <;>
      by_cases hr : s.settings.github_repo = "" <;>
      simp [step, h, ht, hr]
  refine ⟨by rw [hstep], ?_, ?_⟩
  · intro e he
    rw [hstep] at he
    by_cases ht : s.settings.github_token = ""
    · simp [ht] at he
      subst he
      rfl
    · by_cases hr : s.settings.github_repo = ""
      · simp [ht, hr] at he
        subst he
        rfl
      · simp [ht, hr] at he
  · intro ht hr
    constructor
    · simp [pushOutcome, ht, hr, h]
    · rw [hstep]
      simp [ht, hr]

/-- Concrete in-flight state with credential and repo configured, used
to witness push_single_flight. -/
def sC3w : LoopState :=
  { store := default_store
    settings := { sidebar_collapsed := false, github_token := "t",
                  github_repo := "a/b", github_gist_id := "" }
    remote_sha := some "abc"
    sync_in_progress := true }

/-- Witness for C3 at a configured in-flight state: push is rejected
silently with no state change and no spawned worker. -/
theorem push_single_flight_witness :
    sC3w.sync_in_progress = true ∧
    (step sC3w UserEvent.PushToGitHub).1 = sC3w ∧
    pushOutcome sC3w = PushOutcome.alreadyInProgress ∧
    step sC3w UserEvent.PushToGitHub = (sC3w, []) :=
  have h := push_single_flight sC3w rfl
  ⟨rfl, h.1, (h.2.2 (by decide) (by decide)).1, (h.2.2 (by decide) (by decide)).2⟩
